import Mathlib

/-!
Verification of the rolling-buffer and incident-recording pipeline of
`python-backend/buffer_manager.py` (class `BufferManager`).

The Python class is embedded shallowly:

* a `Sample` is a payload (opaque `Nat` standing for a frame / audio array)
  together with its timestamp; Python `time.time()` floats become `Int`
  timestamps, which preserves the order comparisons the code performs;
* the `collections.deque(maxlen = cap)` ring buffers become `List Sample`
  with an explicit `dequeAppend` that drops the oldest element when full;
* the `queue.Queue(maxsize = 100)` ingest queues become `List Sample`
  (head = oldest) with the `put_nowait` / drop-oldest-on-`Full` policy of
  `add_video_frame` / `add_audio_chunk`;
* the `incident_recordings` dict becomes an association list
  `List (String × Recording)`;
* operations that can raise in Python (`mkdir`, opening `cv2.VideoWriter`,
  `wave.open`, `release`/`close`, `json.dump`) are driven by boolean flags
  in an `Env` record: a `false` flag means that call raises.  The
  surrounding `try/except` of the Python methods is modelled faithfully:
  whatever state mutations happened before the raise are kept, exactly as
  the in-place dict mutations persist in Python;
* `time.time()` at each call site becomes an explicit `now : Int` argument;
* sink close invocations (`video_writer.release()`, `audio_writer.close()`)
  are recorded in an observable `trace`, and `json.dump` of the metadata
  appends to an observable `persisted` list.

All operations run under the corresponding Python locks
(`video_lock`, `audio_lock`, `recording_lock`), so the sequential
state-passing semantics below is the linearized behaviour the locks enforce.
-/

namespace BufferManagerSpec

/-- A buffered sample: opaque payload plus capture timestamp
(Python dict `{'frame'/'audio': ..., 'timestamp': ...}`). -/
structure Sample where
  payload : Nat
  timestamp : Int
deriving DecidableEq, Repr

/-- `collections.deque(maxlen = cap).append x`: the new element is appended
and the list is trimmed on the left to at most `cap` elements, so a full
buffer evicts exactly its oldest element. -/
def dequeAppend (cap : Nat) (buf : List Sample) (x : Sample) : List Sample :=
  (buf ++ [x]).drop ((buf ++ [x]).length - cap)

/-- `BufferManager.__init__`: video ring buffer capacity is
`video_buffer_size * 30` (30 FPS). -/
def videoFps : Nat := 30

/-- `BufferManager.__init__`: audio ring buffer capacity is
`audio_buffer_size * 160` (160 chunks per second). -/
def audioChunksPerSec : Nat := 160

/-- `queue.Queue(maxsize=100)` for both ingest queues. -/
def queueMaxsize : Nat := 100

/-- An open sink (`cv2.VideoWriter` / `wave` writer): the sequence of raw
payloads written to it so far. -/
structure Sink where
  written : List Nat
deriving DecidableEq, Repr

/-- A freshly opened sink has received no samples. -/
def emptySink : Sink := { written := [] }

/-- One entry of the `incident_recordings` dict
(`start_incident_recording` lines 178-186). -/
structure Recording where
  rtype : String
  startTime : Int
  directory : String
  videoFrames : List Sample
  audioChunks : List Sample
  videoWriter : Option Sink
  audioWriter : Option Sink
deriving DecidableEq, Repr

/-- The metadata dict built by `stop_incident_recording` (lines 276-285). -/
structure Metadata where
  incident_id : String
  mtype : String
  start_time : Int
  end_time : Int
  duration : Int
  video_frames_count : Nat
  audio_chunks_count : Nat
  directory : String
deriving DecidableEq, Repr

/-- Observable side effects on sink handles: an invocation of
`video_writer.release()` or `audio_writer.close()` for a given incident id. -/
inductive Event where
  | closeVideo (id : String)
  | closeAudio (id : String)
deriving DecidableEq, Repr

/-- Environment of fallible external calls; a `false` flag means the
corresponding Python call raises an exception at that point. -/
structure Env where
  mkdirOk : Bool
  videoOpenOk : Bool
  audioOpenOk : Bool
  videoCloseOk : Bool
  audioCloseOk : Bool
  persistOk : Bool
deriving DecidableEq, Repr

/-- Environment in which no external call fails. -/
def envOk : Env :=
  { mkdirOk := true, videoOpenOk := true, audioOpenOk := true,
    videoCloseOk := true, audioCloseOk := true, persistOk := true }

/-- The mutable state of a `BufferManager` instance. -/
structure BMState where
  videoBufferSize : Nat
  audioBufferSize : Nat
  videoBuffer : List Sample
  audioBuffer : List Sample
  videoQueue : List Sample
  audioQueue : List Sample
  recordings : List (String × Recording)
  persisted : List Metadata
  trace : List Event
deriving DecidableEq, Repr

/-- Capacity of the video ring buffer: `video_buffer_size * 30`. -/
def BMState.videoCap (s : BMState) : Nat := s.videoBufferSize * videoFps

/-- Capacity of the audio ring buffer: `audio_buffer_size * 160`. -/
def BMState.audioCap (s : BMState) : Nat := s.audioBufferSize * audioChunksPerSec

/-- `BufferManager.__init__` with the given buffer sizes (seconds). -/
def mkBufferManager (videoBufferSize audioBufferSize : Nat) : BMState :=
  { videoBufferSize := videoBufferSize, audioBufferSize := audioBufferSize,
    videoBuffer := [], audioBuffer := [], videoQueue := [], audioQueue := [],
    recordings := [], persisted := [], trace := [] }

/-- The example configuration of the module (`video_buffer_size = 30`,
`audio_buffer_size = 10`). -/
def initState : BMState := mkBufferManager 30 10

/-- Dict lookup `incident_recordings[incident_id]` /
`incident_id in incident_recordings`. -/
def lookupRec (id : String) : List (String × Recording) → Option Recording
  | [] => none
  | (k, v) :: rest => if k = id then some v else lookupRec id rest

/-- In-place mutation of the recording stored under `id`
(`incident_recordings[incident_id][...] = ...`). -/
def updateRec (id : String) (f : Recording → Recording)
    (l : List (String × Recording)) : List (String × Recording) :=
  l.map (fun kv => if kv.1 = id then (kv.1, f kv.2) else kv)

/-- `del incident_recordings[incident_id]`. -/
def removeRec (id : String) (l : List (String × Recording)) :
    List (String × Recording) :=
  l.filter (fun kv => !decide (kv.1 = id))

/-- The non-blocking enqueue of `add_video_frame` / `add_audio_chunk`:
`put_nowait`, and on `queue.Full` a `get_nowait` (drop oldest) followed by
`put_nowait` of the new sample. -/
def enqueuePut (maxsize : Nat) (q : List Sample) (x : Sample) : List Sample :=
  if q.length < maxsize then q ++ [x] else q.drop 1 ++ [x]

/-- `BufferManager.add_video_frame`: copies the frame with its timestamp
onto the bounded video ingest queue; total (never raises, never blocks). -/
def addVideoFrame (s : BMState) (frame : Nat) (timestamp : Int) : BMState :=
  { s with videoQueue := enqueuePut queueMaxsize s.videoQueue ⟨frame, timestamp⟩ }

/-- `BufferManager.add_audio_chunk`: copies the chunk with its timestamp
onto the bounded audio ingest queue; total (never raises, never blocks). -/
def addAudioChunk (s : BMState) (audio : Nat) (timestamp : Int) : BMState :=
  { s with audioQueue := enqueuePut queueMaxsize s.audioQueue ⟨audio, timestamp⟩ }

/-- One iteration of the `process_video_buffer` writer loop: dequeue the
oldest queued frame (if any) and append it to the video ring buffer. -/
def processVideoOnce (s : BMState) : BMState :=
  match s.videoQueue with
  | [] => s
  | x :: rest =>
      { s with videoQueue := rest,
               videoBuffer := dequeAppend s.videoCap s.videoBuffer x }

/-- One iteration of the `process_audio_buffer` writer loop. -/
def processAudioOnce (s : BMState) : BMState :=
  match s.audioQueue with
  | [] => s
  | x :: rest =>
      { s with audioQueue := rest,
               audioBuffer := dequeAppend s.audioCap s.audioBuffer x }

/-- `BufferManager.get_video_buffer(duration)` at time `now`
(`now` models the `time.time()` call inside the method): the frames whose
timestamp is at least `now - duration`, in buffer order, read under
`video_lock` without mutating anything — the returned state is the input
state. -/
def getVideoBuffer (s : BMState) (now duration : Int) :
    List Sample × BMState :=
  (s.videoBuffer.filter (fun fd => decide (now - duration ≤ fd.timestamp)), s)

/-- `BufferManager.get_audio_buffer(duration)` at time `now`. -/
def getAudioBuffer (s : BMState) (now duration : Int) :
    List Sample × BMState :=
  (s.audioBuffer.filter (fun fd => decide (now - duration ≤ fd.timestamp)), s)

/-- `BufferManager.start_incident_recording(incident_id, incident_type)` at
time `now`.  Faithful to the source order: duplicate-id check, `mkdir`,
insertion of the registry entry (writers still `None`), then video writer
open, then audio writer open.  A raising call is caught by the method's
outer `except`, which returns `False` — state mutations already performed
are kept (no rollback exists in the source). -/
def startIncidentRecording (env : Env) (now : Int) (s : BMState)
    (id ty : String) : Bool × BMState :=
  if (lookupRec id s.recordings).isSome then
    (false, s)
  else if !env.mkdirOk then
    (false, s)
  else
    let s1 : BMState :=
      { s with recordings :=
          (id, { rtype := ty, startTime := now, directory := id,
                 videoFrames := [], audioChunks := [],
                 videoWriter := none, audioWriter := none }) :: s.recordings }
    if !env.videoOpenOk then
      (false, s1)
    else
      let s2 : BMState :=
        { s1 with recordings :=
            (updateRec id (fun r => { r with videoWriter := some emptySink })
              s1.recordings) }
      if !env.audioOpenOk then
        (false, s2)
      else
        (true,
          { s2 with recordings :=
              (updateRec id (fun r => { r with audioWriter := some emptySink })
                s2.recordings) })

/-- Effect of one `add_incident_frame` call on the stored recording:
write the raw frame to the video sink (if open) and append the
timestamped frame to `video_frames`. -/
def frameUpd (frame : Nat) (now : Int) (r : Recording) : Recording :=
  { r with
    videoWriter := (r.videoWriter.map
      (fun w => { w with written := w.written ++ [frame] })),
    videoFrames := r.videoFrames ++ [⟨frame, now⟩] }

/-- Effect of one `add_incident_audio` call on the stored recording. -/
def audioUpd (audio : Nat) (now : Int) (r : Recording) : Recording :=
  { r with
    audioWriter := (r.audioWriter.map
      (fun w => { w with written := w.written ++ [audio] })),
    audioChunks := r.audioChunks ++ [⟨audio, now⟩] }

/-- `BufferManager.add_incident_frame(incident_id, frame)` at time `now`:
silently a no-op when the id has no active recording. -/
def addIncidentFrame (s : BMState) (id : String) (frame : Nat) (now : Int) :
    BMState :=
  match lookupRec id s.recordings with
  | none => s
  | some _ =>
      { s with recordings := updateRec id (frameUpd frame now) s.recordings }

/-- `BufferManager.add_incident_audio(incident_id, audio_data)` at time
`now`: silently a no-op when the id has no active recording. -/
def addIncidentAudio (s : BMState) (id : String) (audio : Nat) (now : Int) :
    BMState :=
  match lookupRec id s.recordings with
  | none => s
  | some _ =>
      { s with recordings := updateRec id (audioUpd audio now) s.recordings }

/-- A sequence of `add_incident_frame` calls, one per `(payload, time)`. -/
def addFrames (s : BMState) (id : String) (fs : List (Nat × Int)) : BMState :=
  fs.foldl (fun st p => addIncidentFrame st id p.1 p.2) s

/-- A sequence of `add_incident_audio` calls, one per `(payload, time)`. -/
def addAudios (s : BMState) (id : String) (as : List (Nat × Int)) : BMState :=
  as.foldl (fun st p => addIncidentAudio st id p.1 p.2) s

/-- The metadata dict `stop_incident_recording` builds for recording `r`
of incident `id` stopped at time `now`. -/
def mkMetadata (id : String) (r : Recording) (now : Int) : Metadata :=
  { incident_id := id, mtype := r.rtype, start_time := r.startTime,
    end_time := now, duration := now - r.startTime,
    video_frames_count := r.videoFrames.length,
    audio_chunks_count := r.audioChunks.length,
    directory := r.directory }

/-- `BufferManager.stop_incident_recording(incident_id)` at time `now`.
Faithful to the source order: unknown id returns `None`; otherwise
`video_writer.release()`, then `audio_writer.close()`, then the metadata
dict, then `json.dump` (persist), then `del` from the registry, then
return the metadata.  Each close invocation is recorded in the trace; a
raising call is caught by the method's outer `except`, which returns
`None` with all earlier mutations kept (so the registry entry survives). -/
def stopIncidentRecording (env : Env) (now : Int) (s : BMState)
    (id : String) : Option Metadata × BMState :=
  match lookupRec id s.recordings with
  | none => (none, s)
  | some r =>
      let s1 : BMState :=
        if r.videoWriter.isSome then
          { s with trace := s.trace ++ [Event.closeVideo id] }
        else s
      if r.videoWriter.isSome && !env.videoCloseOk then
        (none, s1)
      else
        let s2 : BMState :=
          if r.audioWriter.isSome then
            { s1 with trace := s1.trace ++ [Event.closeAudio id] }
          else s1
        if r.audioWriter.isSome && !env.audioCloseOk then
          (none, s2)
        else
          if !env.persistOk then
            (none, s2)
          else
            (some (mkMetadata id r now),
              { s2 with
                persisted := s2.persisted ++ [mkMetadata id r now],
                recordings := removeRec id s2.recordings })

/-! ## Helper lemmas -/

lemma dequeAppend_snoc (cap : Nat) (l : List Sample) (x : Sample) :
    dequeAppend cap (l.drop (l.length - cap)) x
      = (l ++ [x]).drop ((l ++ [x]).length - cap) := by
  have hk : l.length - cap ≤ l.length := Nat.sub_le _ _
  unfold dequeAppend
  rw [← List.drop_append_of_le_length hk, List.drop_drop, List.length_drop,
    List.length_append]
  congr 1
  simp only [List.length_append, List.length_cons, List.length_nil]
  omega

lemma foldl_dequeAppend (cap : Nat) :
    ∀ (xs acc : List Sample),
      xs.foldl (dequeAppend cap) (acc.drop (acc.length - cap))
        = (acc ++ xs).drop ((acc ++ xs).length - cap)
  | [], acc => by simp
  | x :: xs, acc => by
      rw [List.foldl_cons, dequeAppend_snoc cap acc x,
        foldl_dequeAppend cap xs (acc ++ [x])]
      simp

lemma foldl_dequeAppend_nil (cap : Nat) (xs : List Sample) :
    xs.foldl (dequeAppend cap) [] = xs.drop (xs.length - cap) := by
  have h := foldl_dequeAppend cap xs []
  simpa using h

lemma lookupRec_cons_self (id : String) (r : Recording)
    (l : List (String × Recording)) :
    lookupRec id ((id, r) :: l) = some r := by
  simp [lookupRec]

lemma lookupRec_updateRec (id : String) (f : Recording → Recording)
    (l : List (String × Recording)) :
    lookupRec id (updateRec id f l) = (lookupRec id l).map f := by
  induction l with
  | nil => rfl
  | cons kv rest ih =>
      obtain ⟨k, v⟩ := kv
      simp only [updateRec, List.map_cons] at ih ⊢
      by_cases h : k = id
      · subst h
        rw [if_pos rfl]
        show lookupRec k ((k, f v) :: _) = _
        rw [lookupRec, if_pos rfl, lookupRec, if_pos rfl]
        rfl
      · rw [if_neg h]
        show lookupRec id ((k, v) :: _) = _
        rw [lookupRec, if_neg h, ih, lookupRec, if_neg h]

lemma lookupRec_removeRec (id : String) (l : List (String × Recording)) :
    lookupRec id (removeRec id l) = none := by
  induction l with
  | nil => rfl
  | cons kv rest ih =>
      obtain ⟨k, v⟩ := kv
      by_cases h : k = id
      · simpa [removeRec, h] using ih
      · simpa [removeRec, lookupRec, h] using ih

/-! ## Claim theorems -/

/-- C3: for every sequence of appends exceeding the fixed capacity, the ring
buffer afterwards holds exactly the most recent `cap` samples in append
order; its length never exceeds the capacity; an append to a full buffer
evicts exactly the single oldest sample; and the capacities of the two
modalities are `video_buffer_size * 30` and `audio_buffer_size * 160`. -/
theorem ringBuffer_retains_most_recent (cap : Nat) (xs : List Sample)
    (hfull : cap ≤ xs.length) :
    (xs.foldl (dequeAppend cap) [] = xs.drop (xs.length - cap))
    ∧ ((xs.foldl (dequeAppend cap) []).length = cap)
    ∧ (∀ (ys : List Sample), (ys.foldl (dequeAppend cap) []).length ≤ cap)
    ∧ (∀ (buf : List Sample) (x : Sample), 0 < cap → buf.length = cap →
        dequeAppend cap buf x = buf.drop 1 ++ [x])
    ∧ (∀ (s : BMState), s.videoCap = s.videoBufferSize * 30
        ∧ s.audioCap = s.audioBufferSize * 160) := by
  refine ⟨foldl_dequeAppend_nil cap xs, ?_, ?_, ?_, ?_⟩
  · rw [foldl_dequeAppend_nil cap xs, List.length_drop]
    omega
  · intro ys
    rw [foldl_dequeAppend_nil cap ys, List.length_drop]
    omega
  · intro buf x hpos hlen
    unfold dequeAppend
    rw [← List.drop_append_of_le_length (show 1 ≤ buf.length by omega)]
    congr 1
    simp only [List.length_append, List.length_cons, List.length_nil]
    omega
  · intro s
    exact ⟨rfl, rfl⟩

/-- Witness for C3 at the concrete capacity 2 and a 3-sample append
sequence. -/
theorem ringBuffer_retains_most_recent_witness :
    (2 ≤ ([⟨1, 0⟩, ⟨2, 1⟩, ⟨3, 2⟩] : List Sample).length)
    ∧ ((([⟨1, 0⟩, ⟨2, 1⟩, ⟨3, 2⟩] : List Sample).foldl (dequeAppend 2) []
        = ([⟨1, 0⟩, ⟨2, 1⟩, ⟨3, 2⟩] : List Sample).drop
            (([⟨1, 0⟩, ⟨2, 1⟩, ⟨3, 2⟩] : List Sample).length - 2))
      ∧ ((([⟨1, 0⟩, ⟨2, 1⟩, ⟨3, 2⟩] : List Sample).foldl (dequeAppend 2) []).length = 2)
      ∧ (∀ (ys : List Sample), (ys.foldl (dequeAppend 2) []).length ≤ 2)
      ∧ (∀ (buf : List Sample) (x : Sample), 0 < 2 → buf.length = 2 →
          dequeAppend 2 buf x = buf.drop 1 ++ [x])
      ∧ (∀ (s : BMState), s.videoCap = s.videoBufferSize * 30
          ∧ s.audioCap = s.audioBufferSize * 160)) :=
  ⟨by decide, ringBuffer_retains_most_recent 2 [⟨1, 0⟩, ⟨2, 1⟩, ⟨3, 2⟩] (by decide)⟩

/-- Timestamp ordering between samples. -/
def tsLE (a b : Sample) : Prop := a.timestamp ≤ b.timestamp

instance : DecidableRel tsLE := fun a b => Int.decLe a.timestamp b.timestamp

/-- C4: a windowed read with cutoff `now - dur` returns, in non-decreasing
timestamp order (given the retention invariant that the buffer itself is
timestamp-ordered), exactly the retained samples whose timestamp is at
least the cutoff, as an order-preserving sub-sequence of the buffer; it
mutates nothing, and when no retained sample meets the bound it returns the
empty list rather than failing. -/
theorem window_read_exact (s : BMState) (now dur : Int)
    (hv : List.Pairwise tsLE s.videoBuffer)
    (ha : List.Pairwise tsLE s.audioBuffer) :
    ((getVideoBuffer s now dur).2 = s)
    ∧ (List.Pairwise tsLE (getVideoBuffer s now dur).1)
    ∧ ((getVideoBuffer s now dur).1.Sublist s.videoBuffer)
    ∧ (∀ x ∈ (getVideoBuffer s now dur).1, now - dur ≤ x.timestamp)
    ∧ (∀ x ∈ s.videoBuffer, now - dur ≤ x.timestamp →
        x ∈ (getVideoBuffer s now dur).1)
    ∧ ((∀ x ∈ s.videoBuffer, x.timestamp < now - dur) →
        (getVideoBuffer s now dur).1 = [])
    ∧ ((getAudioBuffer s now dur).2 = s)
    ∧ (List.Pairwise tsLE (getAudioBuffer s now dur).1)
    ∧ ((getAudioBuffer s now dur).1.Sublist s.audioBuffer)
    ∧ (∀ x ∈ (getAudioBuffer s now dur).1, now - dur ≤ x.timestamp)
    ∧ (∀ x ∈ s.audioBuffer, now - dur ≤ x.timestamp →
        x ∈ (getAudioBuffer s now dur).1)
    ∧ ((∀ x ∈ s.audioBuffer, x.timestamp < now - dur) →
        (getAudioBuffer s now dur).1 = []) := by
  refine ⟨rfl, hv.sublist (List.filter_sublist _), List.filter_sublist _,
    ?_, ?_, ?_, rfl, ha.sublist (List.filter_sublist _), List.filter_sublist _,
    ?_, ?_, ?_⟩
  · intro x hx
    simpa using (List.mem_filter.mp hx).2
  · intro x hx hts
    exact List.mem_filter.mpr ⟨hx, by simpa using hts⟩
  · intro hall
    refine List.filter_eq_nil_iff.mpr ?_
    intro x hx
    have := hall x hx
    simpa using (by omega : ¬ now - dur ≤ x.timestamp)
  · intro x hx
    simpa using (List.mem_filter.mp hx).2
  · intro x hx hts
    exact List.mem_filter.mpr ⟨hx, by simpa using hts⟩
  · intro hall
    refine List.filter_eq_nil_iff.mpr ?_
    intro x hx
    have := hall x hx
    simpa using (by omega : ¬ now - dur ≤ x.timestamp)

/-- C5: the windowed read is idempotent — against the unchanged state a
second read with the same cutoff returns the same sequence, and neither
read mutates the state. -/
theorem window_read_idempotent (s : BMState) (now dur : Int) :
    ((getVideoBuffer ((getVideoBuffer s now dur).2) now dur).1
      = (getVideoBuffer s now dur).1)
    ∧ ((getVideoBuffer ((getVideoBuffer s now dur).2) now dur).2 = s)
    ∧ ((getAudioBuffer ((getAudioBuffer s now dur).2) now dur).1
      = (getAudioBuffer s now dur).1)
    ∧ ((getAudioBuffer ((getAudioBuffer s now dur).2) now dur).2 = s) :=
  ⟨rfl, rfl, rfl, rfl⟩

/-- C6: the capture-side enqueue is a total function (it neither blocks nor
raises); below capacity it appends the new sample, at capacity it drops the
single oldest queued sample and enqueues the new one in its place, and the
queue never grows beyond its capacity. -/
theorem capture_enqueue_never_fails (s : BMState) (f a : Nat) (ts : Int)
    (hv : s.videoQueue.length ≤ queueMaxsize)
    (ha : s.audioQueue.length ≤ queueMaxsize) :
    ((addVideoFrame s f ts).videoQueue
      = enqueuePut queueMaxsize s.videoQueue ⟨f, ts⟩)
    ∧ (s.videoQueue.length < queueMaxsize →
        (addVideoFrame s f ts).videoQueue = s.videoQueue ++ [⟨f, ts⟩])
    ∧ (s.videoQueue.length = queueMaxsize →
        (addVideoFrame s f ts).videoQueue = s.videoQueue.drop 1 ++ [⟨f, ts⟩])
    ∧ ((addVideoFrame s f ts).videoQueue.length ≤ queueMaxsize)
    ∧ ((addAudioChunk s a ts).audioQueue
      = enqueuePut queueMaxsize s.audioQueue ⟨a, ts⟩)
    ∧ (s.audioQueue.length < queueMaxsize →
        (addAudioChunk s a ts).audioQueue = s.audioQueue ++ [⟨a, ts⟩])
    ∧ (s.audioQueue.length = queueMaxsize →
        (addAudioChunk s a ts).audioQueue = s.audioQueue.drop 1 ++ [⟨a, ts⟩])
    ∧ ((addAudioChunk s a ts).audioQueue.length ≤ queueMaxsize) := by
  refine ⟨rfl, ?_, ?_, ?_, rfl, ?_, ?_, ?_⟩
  · intro h
    simp [addVideoFrame, enqueuePut, h]
  · intro h
    simp [addVideoFrame, enqueuePut, h]
  · show (enqueuePut queueMaxsize s.videoQueue ⟨f, ts⟩).length ≤ queueMaxsize
    unfold enqueuePut queueMaxsize
    unfold queueMaxsize at hv
    split
    · simp only [List.length_append, List.length_cons, List.length_nil]
      omega
    · simp only [List.length_append, List.length_drop, List.length_cons,
        List.length_nil]
      omega
  · intro h
    simp [addAudioChunk, enqueuePut, h]
  · intro h
    simp [addAudioChunk, enqueuePut, h]
  · show (enqueuePut queueMaxsize s.audioQueue ⟨a, ts⟩).length ≤ queueMaxsize
    unfold enqueuePut queueMaxsize
    unfold queueMaxsize at ha
    split
    · simp only [List.length_append, List.length_cons, List.length_nil]
      omega
    · simp only [List.length_append, List.length_drop, List.length_cons,
        List.length_nil]
      omega

/-- Witness for C6 at the empty initial queues. -/
theorem capture_enqueue_never_fails_witness :
    initState.videoQueue.length ≤ queueMaxsize
    ∧ initState.audioQueue.length ≤ queueMaxsize
    ∧ (((addVideoFrame initState 7 3).videoQueue
        = enqueuePut queueMaxsize initState.videoQueue ⟨7, 3⟩)
      ∧ (initState.videoQueue.length < queueMaxsize →
          (addVideoFrame initState 7 3).videoQueue
            = initState.videoQueue ++ [⟨7, 3⟩])
      ∧ (initState.videoQueue.length = queueMaxsize →
          (addVideoFrame initState 7 3).videoQueue
            = initState.videoQueue.drop 1 ++ [⟨7, 3⟩])
      ∧ ((addVideoFrame initState 7 3).videoQueue.length ≤ queueMaxsize)
      ∧ ((addAudioChunk initState 9 3).audioQueue
        = enqueuePut queueMaxsize initState.audioQueue ⟨9, 3⟩)
      ∧ (initState.audioQueue.length < queueMaxsize →
          (addAudioChunk initState 9 3).audioQueue
            = initState.audioQueue ++ [⟨9, 3⟩])
      ∧ (initState.audioQueue.length = queueMaxsize →
          (addAudioChunk initState 9 3).audioQueue
            = initState.audioQueue.drop 1 ++ [⟨9, 3⟩])
      ∧ ((addAudioChunk initState 9 3).audioQueue.length ≤ queueMaxsize)) :=
  ⟨by decide, by decide,
    capture_enqueue_never_fails initState 7 9 3 (by decide) (by decide)⟩

/-- The recording entry created by a fully successful
`start_incident_recording(id, ty)` at time `now`. -/
def freshRecording (id ty : String) (now : Int) : Recording :=
  { rtype := ty, startTime := now, directory := id,
    videoFrames := [], audioChunks := [],
    videoWriter := some emptySink, audioWriter := some emptySink }

/-- The registry entry as first inserted by `start_incident_recording`
(both writers still `None`). -/
def initialRecording (id ty : String) (now : Int) : Recording :=
  { rtype := ty, startTime := now, directory := id,
    videoFrames := [], audioChunks := [],
    videoWriter := none, audioWriter := none }

lemma start_success (env : Env) (now : Int) (s : BMState) (id ty : String)
    (hfree : lookupRec id s.recordings = none)
    (hmk : env.mkdirOk = true) (hvo : env.videoOpenOk = true)
    (hao : env.audioOpenOk = true) :
    ((startIncidentRecording env now s id ty).1 = true)
    ∧ ((startIncidentRecording env now s id ty).2.recordings
        = updateRec id (fun r => { r with audioWriter := some emptySink })
            (updateRec id (fun r => { r with videoWriter := some emptySink })
              ((id, initialRecording id ty now) :: s.recordings)))
    ∧ ((startIncidentRecording env now s id ty).2.videoBuffer = s.videoBuffer)
    ∧ ((startIncidentRecording env now s id ty).2.audioBuffer = s.audioBuffer) := by
  unfold startIncidentRecording
  rw [hfree, hmk, hvo, hao]
  exact ⟨rfl, rfl, rfl, rfl⟩

lemma lookupRec_start_success (env : Env) (now : Int) (s : BMState)
    (id ty : String) (hfree : lookupRec id s.recordings = none)
    (hmk : env.mkdirOk = true) (hvo : env.videoOpenOk = true)
    (hao : env.audioOpenOk = true) :
    lookupRec id (startIncidentRecording env now s id ty).2.recordings
      = some (freshRecording id ty now) := by
  rw [(start_success env now s id ty hfree hmk hvo hao).2.1]
  rw [lookupRec_updateRec, lookupRec_updateRec, lookupRec_cons_self]
  rfl

/-- C7: at most one active recording per incident id — a start for an id
that already has a live recording returns `False` and leaves the state
untouched, and of two successive start calls for the same id (serialized by
`recording_lock`) exactly the first succeeds, the second being rejected
without changing the state. -/
theorem at_most_one_recording_per_id (env env2 : Env) (now now2 : Int)
    (s : BMState) (id ty ty2 : String)
    (hfree : lookupRec id s.recordings = none)
    (hmk : env.mkdirOk = true) (hvo : env.videoOpenOk = true)
    (hao : env.audioOpenOk = true) :
    (∀ (s' : BMState) (e : Env) (n : Int) (t : String),
        (lookupRec id s'.recordings).isSome = true →
        startIncidentRecording e n s' id t = (false, s'))
    ∧ ((startIncidentRecording env now s id ty).1 = true)
    ∧ (startIncidentRecording env2 now2
        (startIncidentRecording env now s id ty).2 id ty2
      = (false, (startIncidentRecording env now s id ty).2)) := by
  have hrej : ∀ (s' : BMState) (e : Env) (n : Int) (t : String),
      (lookupRec id s'.recordings).isSome = true →
      startIncidentRecording e n s' id t = (false, s') := by
    intro s' e n t h
    unfold startIncidentRecording
    rw [h]
    rfl
  refine ⟨hrej, (start_success env now s id ty hfree hmk hvo hao).1, ?_⟩
  · refine hrej _ env2 now2 ty2 ?_
    rw [lookupRec_start_success env now s id ty hfree hmk hvo hao]
    rfl

/-- Witness for C7: a concrete double start for the same id. -/
theorem at_most_one_recording_per_id_witness :
    lookupRec "i1" initState.recordings = none
    ∧ ((∀ (s' : BMState) (e : Env) (n : Int) (t : String),
          (lookupRec "i1" s'.recordings).isSome = true →
          startIncidentRecording e n s' "i1" t = (false, s'))
      ∧ ((startIncidentRecording envOk 0 initState "i1" "fight").1 = true)
      ∧ (startIncidentRecording envOk 1
          (startIncidentRecording envOk 0 initState "i1" "fight").2 "i1" "theft"
        = (false, (startIncidentRecording envOk 0 initState "i1" "fight").2))) :=
  ⟨by decide,
    at_most_one_recording_per_id envOk envOk 0 1 initState "i1" "fight" "theft"
      (by decide) (by decide) (by decide) (by decide)⟩

/-- C1 counterexample: a successful `start_incident_recording` while the
ring buffers hold pre-roll samples leaves both newly opened sinks with an
empty `written` sequence — no pre-roll is written to the sinks before the
call completes, contrary to the claim. -/
theorem start_preroll_counterexample :
    ((startIncidentRecording envOk 10
        { initState with
          videoBuffer := [⟨1, 8⟩, ⟨2, 9⟩, ⟨3, 10⟩],
          audioBuffer := [⟨4, 9⟩, ⟨5, 10⟩] } "i1" "fight").1 = true)
    ∧ ((lookupRec "i1" (startIncidentRecording envOk 10
          { initState with
            videoBuffer := [⟨1, 8⟩, ⟨2, 9⟩, ⟨3, 10⟩],
            audioBuffer := [⟨4, 9⟩, ⟨5, 10⟩] } "i1" "fight").2.recordings).map
        (fun r => (r.videoWriter, r.audioWriter))
      = some (some { written := [] }, some { written := [] })) := by
  exact ⟨by decide, by decide⟩

/-- C1 (amended): a successful `start_incident_recording` opens the video
and audio sinks but writes nothing to them — no pre-roll snapshot of the
ring buffers is taken: the stored pre-roll lists are empty, both sinks have
received no samples, and the ring buffers are not consulted (left
unchanged).  Samples reach the sinks only through later
`add_incident_frame` / `add_incident_audio` calls. -/
theorem start_writes_no_preroll (env : Env) (now : Int) (s : BMState)
    (id ty : String) (hfree : lookupRec id s.recordings = none)
    (hmk : env.mkdirOk = true) (hvo : env.videoOpenOk = true)
    (hao : env.audioOpenOk = true) :
    ((startIncidentRecording env now s id ty).1 = true)
    ∧ (lookupRec id (startIncidentRecording env now s id ty).2.recordings
        = some (freshRecording id ty now))
    ∧ ((freshRecording id ty now).videoWriter = some { written := [] })
    ∧ ((freshRecording id ty now).audioWriter = some { written := [] })
    ∧ ((freshRecording id ty now).videoFrames = [])
    ∧ ((freshRecording id ty now).audioChunks = [])
    ∧ ((startIncidentRecording env now s id ty).2.videoBuffer = s.videoBuffer)
    ∧ ((startIncidentRecording env now s id ty).2.audioBuffer = s.audioBuffer) := by
  obtain ⟨h1, _, h3, h4⟩ := start_success env now s id ty hfree hmk hvo hao
  exact ⟨h1, lookupRec_start_success env now s id ty hfree hmk hvo hao,
    rfl, rfl, rfl, rfl, h3, h4⟩

/-- Witness for the amended C1 at a concrete state with pre-roll. -/
theorem start_writes_no_preroll_witness :
    lookupRec "i1" { initState with
        videoBuffer := [⟨1, 8⟩, ⟨2, 9⟩] }.recordings = none
    ∧ (((startIncidentRecording envOk 10
          { initState with videoBuffer := [⟨1, 8⟩, ⟨2, 9⟩] } "i1" "fight").1 = true)
      ∧ (lookupRec "i1" (startIncidentRecording envOk 10
            { initState with videoBuffer := [⟨1, 8⟩, ⟨2, 9⟩] } "i1"
            "fight").2.recordings
          = some (freshRecording "i1" "fight" 10))
      ∧ ((freshRecording "i1" "fight" 10).videoWriter = some { written := [] })
      ∧ ((freshRecording "i1" "fight" 10).audioWriter = some { written := [] })
      ∧ ((freshRecording "i1" "fight" 10).videoFrames = [])
      ∧ ((freshRecording "i1" "fight" 10).audioChunks = [])
      ∧ ((startIncidentRecording envOk 10
            { initState with videoBuffer := [⟨1, 8⟩, ⟨2, 9⟩] } "i1"
            "fight").2.videoBuffer
          = { initState with videoBuffer := [⟨1, 8⟩, ⟨2, 9⟩] }.videoBuffer)
      ∧ ((startIncidentRecording envOk 10
            { initState with videoBuffer := [⟨1, 8⟩, ⟨2, 9⟩] } "i1"
            "fight").2.audioBuffer
          = { initState with videoBuffer := [⟨1, 8⟩, ⟨2, 9⟩] }.audioBuffer)) :=
  ⟨by decide,
    start_writes_no_preroll envOk 10
      { initState with videoBuffer := [⟨1, 8⟩, ⟨2, 9⟩] } "i1" "fight"
      (by decide) (by decide) (by decide) (by decide)⟩

/-- C2 counterexample: when opening the audio sink raises, the call returns
`False` but the half-created registry entry for the id remains, and a later
start for the same id is rejected — contrary to the claimed rollback. -/
theorem start_rollback_counterexample :
    ((startIncidentRecording { envOk with audioOpenOk := false } 0
        initState "i1" "fight").1 = false)
    ∧ ((lookupRec "i1" (startIncidentRecording { envOk with audioOpenOk := false }
          0 initState "i1" "fight").2.recordings).isSome = true)
    ∧ ((startIncidentRecording envOk 1
        (startIncidentRecording { envOk with audioOpenOk := false } 0
          initState "i1" "fight").2 "i1" "fight").1 = false) := by
  exact ⟨by decide, by decide, by decide⟩

/-- C2 (amended): when opening the video or the audio sink raises, the
start call does return `False`, but the registry entry inserted before the
sink-open step is *not* rolled back: the id stays in the active-recordings
map, and every later start for that id is rejected as already active. -/
theorem start_sink_failure_leaves_entry (env : Env) (now : Int) (s : BMState)
    (id ty : String) (hfree : lookupRec id s.recordings = none)
    (hmk : env.mkdirOk = true)
    (hfail : env.videoOpenOk = false ∨ env.audioOpenOk = false) :
    ((startIncidentRecording env now s id ty).1 = false)
    ∧ ((lookupRec id (startIncidentRecording env now s id ty).2.recordings).isSome
        = true)
    ∧ (∀ (e : Env) (n : Int) (t : String),
        (startIncidentRecording e n (startIncidentRecording env now s id ty).2
          id t).1 = false) := by
  have hrej : ∀ (s' : BMState) (e : Env) (n : Int) (t : String),
      (lookupRec id s'.recordings).isSome = true →
      (startIncidentRecording e n s' id t).1 = false := by
    intro s' e n t h
    unfold startIncidentRecording
    rw [h]
    rfl
  by_cases hvo : env.videoOpenOk = true
  · have hao : env.audioOpenOk = false := by
      rcases hfail with h | h
      · rw [hvo] at h
        exact absurd h (by simp)
      · exact h
    have hmain : (startIncidentRecording env now s id ty).1 = false
        ∧ (lookupRec id (startIncidentRecording env now s id ty).2.recordings).isSome
            = true := by
      unfold startIncidentRecording
      rw [hfree, hmk, hvo, hao]
      refine ⟨rfl, ?_⟩
      show (lookupRec id (updateRec id
          (fun r => { r with videoWriter := some emptySink })
          ((id, initialRecording id ty now) :: s.recordings))).isSome = true
      rw [lookupRec_updateRec, lookupRec_cons_self]
      rfl
    exact ⟨hmain.1, hmain.2, fun e n t => hrej _ e n t hmain.2⟩
  · have hvo' : env.videoOpenOk = false := by
      cases h : env.videoOpenOk
      · rfl
      · exact absurd h hvo
    have hmain : (startIncidentRecording env now s id ty).1 = false
        ∧ (lookupRec id (startIncidentRecording env now s id ty).2.recordings).isSome
            = true := by
      unfold startIncidentRecording
      rw [hfree, hmk, hvo']
      refine ⟨rfl, ?_⟩
      show (lookupRec id
          ((id, initialRecording id ty now) :: s.recordings)).isSome = true
      rw [lookupRec_cons_self]
      rfl
    exact ⟨hmain.1, hmain.2, fun e n t => hrej _ e n t hmain.2⟩

/-- Witness for the amended C2 with a concrete failing audio-sink open. -/
theorem start_sink_failure_leaves_entry_witness :
    lookupRec "i1" initState.recordings = none
    ∧ ({ envOk with audioOpenOk := false } : Env).mkdirOk = true
    ∧ (({ envOk with audioOpenOk := false } : Env).videoOpenOk = false
        ∨ ({ envOk with audioOpenOk := false } : Env).audioOpenOk = false)
    ∧ (((startIncidentRecording { envOk with audioOpenOk := false } 0
          initState "i1" "fight").1 = false)
      ∧ ((lookupRec "i1" (startIncidentRecording
            { envOk with audioOpenOk := false } 0 initState "i1"
            "fight").2.recordings).isSome = true)
      ∧ (∀ (e : Env) (n : Int) (t : String),
          (startIncidentRecording e n
            (startIncidentRecording { envOk with audioOpenOk := false } 0
              initState "i1" "fight").2 "i1" t).1 = false)) :=
  ⟨by decide, by decide, by decide,
    start_sink_failure_leaves_entry { envOk with audioOpenOk := false } 0
      initState "i1" "fight" (by decide) (by decide) (Or.inr (by decide))⟩

/-- Cumulative effect of a sequence of `add_incident_frame` calls on the
stored recording. -/
def frameFold (fs : List (Nat × Int)) (r : Recording) : Recording :=
  fs.foldl (fun rr p => frameUpd p.1 p.2 rr) r

/-- Cumulative effect of a sequence of `add_incident_audio` calls on the
stored recording. -/
def audioFold (as : List (Nat × Int)) (r : Recording) : Recording :=
  as.foldl (fun rr p => audioUpd p.1 p.2 rr) r

lemma lookupRec_addIncidentFrame (s : BMState) (id : String) (f : Nat)
    (now : Int) :
    lookupRec id (addIncidentFrame s id f now).recordings
      = (lookupRec id s.recordings).map (frameUpd f now) := by
  unfold addIncidentFrame
  cases h : lookupRec id s.recordings with
  | none =>
      rw [h]
      rfl
  | some r =>
      show lookupRec id (updateRec id (frameUpd f now) s.recordings) = _
      rw [lookupRec_updateRec, h]

lemma lookupRec_addIncidentAudio (s : BMState) (id : String) (a : Nat)
    (now : Int) :
    lookupRec id (addIncidentAudio s id a now).recordings
      = (lookupRec id s.recordings).map (audioUpd a now) := by
  unfold addIncidentAudio
  cases h : lookupRec id s.recordings with
  | none =>
      rw [h]
      rfl
  | some r =>
      show lookupRec id (updateRec id (audioUpd a now) s.recordings) = _
      rw [lookupRec_updateRec, h]

lemma lookupRec_addFrames (id : String) :
    ∀ (fs : List (Nat × Int)) (s : BMState),
      lookupRec id (addFrames s id fs).recordings
        = (lookupRec id s.recordings).map (frameFold fs)
  | [], s => by
      show lookupRec id s.recordings = _
      cases lookupRec id s.recordings <;> rfl
  | p :: fs, s => by
      show lookupRec id (addFrames (addIncidentFrame s id p.1 p.2) id fs).recordings = _
      rw [lookupRec_addFrames id fs (addIncidentFrame s id p.1 p.2),
        lookupRec_addIncidentFrame]
      cases lookupRec id s.recordings <;> rfl

lemma lookupRec_addAudios (id : String) :
    ∀ (as : List (Nat × Int)) (s : BMState),
      lookupRec id (addAudios s id as).recordings
        = (lookupRec id s.recordings).map (audioFold as)
  | [], s => by
      show lookupRec id s.recordings = _
      cases lookupRec id s.recordings <;> rfl
  | p :: as, s => by
      show lookupRec id (addAudios (addIncidentAudio s id p.1 p.2) id as).recordings = _
      rw [lookupRec_addAudios id as (addIncidentAudio s id p.1 p.2),
        lookupRec_addIncidentAudio]
      cases lookupRec id s.recordings <;> rfl

lemma frameFold_spec :
    ∀ (fs : List (Nat × Int)) (r : Recording),
      ((frameFold fs r).videoFrames.length = r.videoFrames.length + fs.length)
      ∧ ((frameFold fs r).audioChunks = r.audioChunks)
      ∧ ((frameFold fs r).audioWriter = r.audioWriter)
      ∧ ((frameFold fs r).videoWriter.isSome = r.videoWriter.isSome)
      ∧ ((frameFold fs r).rtype = r.rtype)
      ∧ ((frameFold fs r).startTime = r.startTime)
      ∧ ((frameFold fs r).directory = r.directory)
  | [], r => ⟨rfl, rfl, rfl, rfl, rfl, rfl, rfl⟩
  | p :: fs, r => by
      obtain ⟨h1, h2, h3, h4, h5, h6, h7⟩ := frameFold_spec fs (frameUpd p.1 p.2 r)
      have hstep : frameFold (p :: fs) r = frameFold fs (frameUpd p.1 p.2 r) := rfl
      rw [hstep]
      refine ⟨?_, h2, h3, ?_, h5, h6, h7⟩
      · rw [h1]
        simp only [frameUpd, List.length_append, List.length_cons,
          List.length_nil]
        omega
      · rw [h4]
        simp only [frameUpd]
        cases r.videoWriter <;> rfl

lemma audioFold_spec :
    ∀ (as : List (Nat × Int)) (r : Recording),
      ((audioFold as r).audioChunks.length = r.audioChunks.length + as.length)
      ∧ ((audioFold as r).videoFrames = r.videoFrames)
      ∧ ((audioFold as r).videoWriter = r.videoWriter)
      ∧ ((audioFold as r).audioWriter.isSome = r.audioWriter.isSome)
      ∧ ((audioFold as r).rtype = r.rtype)
      ∧ ((audioFold as r).startTime = r.startTime)
      ∧ ((audioFold as r).directory = r.directory)
  | [], r => ⟨rfl, rfl, rfl, rfl, rfl, rfl, rfl⟩
  | p :: as, r => by
      obtain ⟨h1, h2, h3, h4, h5, h6, h7⟩ := audioFold_spec as (audioUpd p.1 p.2 r)
      have hstep : audioFold (p :: as) r = audioFold as (audioUpd p.1 p.2 r) := rfl
      rw [hstep]
      refine ⟨?_, h2, h3, ?_, h5, h6, h7⟩
      · rw [h1]
        simp only [audioUpd, List.length_append, List.length_cons,
          List.length_nil]
        omega
      · rw [h4]
        simp only [audioUpd]
        cases r.audioWriter <;> rfl

lemma stop_success (env : Env) (now : Int) (s : BMState) (id : String)
    (r : Recording) (hl : lookupRec id s.recordings = some r)
    (hv : r.videoWriter.isSome = true) (ha : r.audioWriter.isSome = true)
    (hvc : env.videoCloseOk = true) (hac : env.audioCloseOk = true)
    (hp : env.persistOk = true) :
    stopIncidentRecording env now s id
      = (some (mkMetadata id r now),
          { s with
            trace := (s.trace ++ [Event.closeVideo id]) ++ [Event.closeAudio id],
            persisted := s.persisted ++ [mkMetadata id r now],
            recordings := removeRec id s.recordings }) := by
  simp only [stopIncidentRecording, hl, hv, ha, hvc, hac, hp, Bool.not_true,
    Bool.and_false, Bool.false_eq_true, if_false, if_true, ite_true, ite_false]

/-- C8: a complete cycle — successful start, `N` incident frames, `M`
incident audio chunks, stop — returns metadata whose frame count is `N` and
whose chunk count is `M`, and afterwards the registry has no entry for the
id. -/
theorem full_cycle_counts (env : Env) (now1 now2 : Int) (s : BMState)
    (id ty : String) (fs as : List (Nat × Int))
    (hfree : lookupRec id s.recordings = none)
    (hmk : env.mkdirOk = true) (hvo : env.videoOpenOk = true)
    (hao : env.audioOpenOk = true) (hvc : env.videoCloseOk = true)
    (hac : env.audioCloseOk = true) (hp : env.persistOk = true) :
    ((startIncidentRecording env now1 s id ty).1 = true)
    ∧ ((stopIncidentRecording env now2
          (addAudios (addFrames (startIncidentRecording env now1 s id ty).2
            id fs) id as) id).1.map Metadata.video_frames_count
        = some fs.length)
    ∧ ((stopIncidentRecording env now2
          (addAudios (addFrames (startIncidentRecording env now1 s id ty).2
            id fs) id as) id).1.map Metadata.audio_chunks_count
        = some as.length)
    ∧ (lookupRec id (stopIncidentRecording env now2
          (addAudios (addFrames (startIncidentRecording env now1 s id ty).2
            id fs) id as) id).2.recordings = none) := by
  have hstart := lookupRec_start_success env now1 s id ty hfree hmk hvo hao
  have hfin : lookupRec id
      (addAudios (addFrames (startIncidentRecording env now1 s id ty).2 id fs)
        id as).recordings
      = some (audioFold as (frameFold fs (freshRecording id ty now1))) := by
    rw [lookupRec_addAudios, lookupRec_addFrames, hstart]
    rfl
  obtain ⟨hf1, hf2, hf3, hf4, _, _, _⟩ :=
    frameFold_spec fs (freshRecording id ty now1)
  obtain ⟨ha1, ha2, ha3, ha4, _, _, _⟩ :=
    audioFold_spec as (frameFold fs (freshRecording id ty now1))
  have hvfin : (audioFold as (frameFold fs (freshRecording id ty now1))).videoWriter.isSome = true := by
    rw [ha3, hf4]
    rfl
  have hafin : (audioFold as (frameFold fs (freshRecording id ty now1))).audioWriter.isSome = true := by
    rw [ha4]
    rw [show (frameFold fs (freshRecording id ty now1)).audioWriter
        = (freshRecording id ty now1).audioWriter from hf3]
    rfl
  have hstop := stop_success env now2 _ id _ hfin hvfin hafin hvc hac hp
  rw [hstop]
  refine ⟨(start_success env now1 s id ty hfree hmk hvo hao).1, ?_, ?_, ?_⟩
  · show some (mkMetadata id _ now2).video_frames_count = some fs.length
    rw [show (mkMetadata id (audioFold as (frameFold fs (freshRecording id ty now1))) now2).video_frames_count
        = (audioFold as (frameFold fs (freshRecording id ty now1))).videoFrames.length from rfl]
    rw [ha2, hf1]
    simp [freshRecording]
  · show some (mkMetadata id _ now2).audio_chunks_count = some as.length
    rw [show (mkMetadata id (audioFold as (frameFold fs (freshRecording id ty now1))) now2).audio_chunks_count
        = (audioFold as (frameFold fs (freshRecording id ty now1))).audioChunks.length from rfl]
    rw [ha1]
    rw [show (frameFold fs (freshRecording id ty now1)).audioChunks
        = (freshRecording id ty now1).audioChunks from hf2]
    simp [freshRecording]
  · show lookupRec id (removeRec id _) = none
    exact lookupRec_removeRec id _

/-- Witness for C8 with two frames and three audio chunks. -/
theorem full_cycle_counts_witness :
    lookupRec "i1" initState.recordings = none
    ∧ (((startIncidentRecording envOk 5 initState "i1" "fight").1 = true)
      ∧ ((stopIncidentRecording envOk 9
            (addAudios (addFrames (startIncidentRecording envOk 5 initState
              "i1" "fight").2 "i1" [(1, 6), (2, 7)]) "i1"
              [(3, 7), (4, 8), (5, 9)]) "i1").1.map Metadata.video_frames_count
          = some ([(1, 6), (2, 7)] : List (Nat × Int)).length)
      ∧ ((stopIncidentRecording envOk 9
            (addAudios (addFrames (startIncidentRecording envOk 5 initState
              "i1" "fight").2 "i1" [(1, 6), (2, 7)]) "i1"
              [(3, 7), (4, 8), (5, 9)]) "i1").1.map Metadata.audio_chunks_count
          = some ([(3, 7), (4, 8), (5, 9)] : List (Nat × Int)).length)
      ∧ (lookupRec "i1" (stopIncidentRecording envOk 9
            (addAudios (addFrames (startIncidentRecording envOk 5 initState
              "i1" "fight").2 "i1" [(1, 6), (2, 7)]) "i1"
              [(3, 7), (4, 8), (5, 9)]) "i1").2.recordings = none)) :=
  ⟨by decide,
    full_cycle_counts envOk 5 9 initState "i1" "fight" [(1, 6), (2, 7)]
      [(3, 7), (4, 8), (5, 9)] (by decide) (by decide) (by decide) (by decide)
      (by decide) (by decide) (by decide)⟩

/-- Witness for C4 at a concrete sorted buffer state and cutoff. -/
theorem window_read_exact_witness :
    List.Pairwise tsLE ({ initState with
        videoBuffer := [⟨1, 1⟩, ⟨2, 3⟩, ⟨3, 5⟩],
        audioBuffer := [⟨4, 2⟩, ⟨5, 4⟩] } : BMState).videoBuffer
    ∧ List.Pairwise tsLE ({ initState with
        videoBuffer := [⟨1, 1⟩, ⟨2, 3⟩, ⟨3, 5⟩],
        audioBuffer := [⟨4, 2⟩, ⟨5, 4⟩] } : BMState).audioBuffer
    ∧ (((getVideoBuffer { initState with
            videoBuffer := [⟨1, 1⟩, ⟨2, 3⟩, ⟨3, 5⟩],
            audioBuffer := [⟨4, 2⟩, ⟨5, 4⟩] } 6 3).2
          = { initState with
              videoBuffer := [⟨1, 1⟩, ⟨2, 3⟩, ⟨3, 5⟩],
              audioBuffer := [⟨4, 2⟩, ⟨5, 4⟩] })
      ∧ (List.Pairwise tsLE (getVideoBuffer { initState with
            videoBuffer := [⟨1, 1⟩, ⟨2, 3⟩, ⟨3, 5⟩],
            audioBuffer := [⟨4, 2⟩, ⟨5, 4⟩] } 6 3).1)
      ∧ ((getVideoBuffer { initState with
            videoBuffer := [⟨1, 1⟩, ⟨2, 3⟩, ⟨3, 5⟩],
            audioBuffer := [⟨4, 2⟩, ⟨5, 4⟩] } 6 3).1.Sublist
          ({ initState with
              videoBuffer := [⟨1, 1⟩, ⟨2, 3⟩, ⟨3, 5⟩],
              audioBuffer := [⟨4, 2⟩, ⟨5, 4⟩] } : BMState).videoBuffer)
      ∧ (∀ x ∈ (getVideoBuffer { initState with
            videoBuffer := [⟨1, 1⟩, ⟨2, 3⟩, ⟨3, 5⟩],
            audioBuffer := [⟨4, 2⟩, ⟨5, 4⟩] } 6 3).1,
          (6 : Int) - 3 ≤ x.timestamp)
      ∧ (∀ x ∈ ({ initState with
            videoBuffer := [⟨1, 1⟩, ⟨2, 3⟩, ⟨3, 5⟩],
            audioBuffer := [⟨4, 2⟩, ⟨5, 4⟩] } : BMState).videoBuffer,
          (6 : Int) - 3 ≤ x.timestamp →
          x ∈ (getVideoBuffer { initState with
            videoBuffer := [⟨1, 1⟩, ⟨2, 3⟩, ⟨3, 5⟩],
            audioBuffer := [⟨4, 2⟩, ⟨5, 4⟩] } 6 3).1)
      ∧ ((∀ x ∈ ({ initState with
            videoBuffer := [⟨1, 1⟩, ⟨2, 3⟩, ⟨3, 5⟩],
            audioBuffer := [⟨4, 2⟩, ⟨5, 4⟩] } : BMState).videoBuffer,
          x.timestamp < (6 : Int) - 3) →
          (getVideoBuffer { initState with
            videoBuffer := [⟨1, 1⟩, ⟨2, 3⟩, ⟨3, 5⟩],
            audioBuffer := [⟨4, 2⟩, ⟨5, 4⟩] } 6 3).1 = [])
      ∧ ((getAudioBuffer { initState with
            videoBuffer := [⟨1, 1⟩, ⟨2, 3⟩, ⟨3, 5⟩],
            audioBuffer := [⟨4, 2⟩, ⟨5, 4⟩] } 6 3).2
          = { initState with
              videoBuffer := [⟨1, 1⟩, ⟨2, 3⟩, ⟨3, 5⟩],
              audioBuffer := [⟨4, 2⟩, ⟨5, 4⟩] })
      ∧ (List.Pairwise tsLE (getAudioBuffer { initState with
            videoBuffer := [⟨1, 1⟩, ⟨2, 3⟩, ⟨3, 5⟩],
            audioBuffer := [⟨4, 2⟩, ⟨5, 4⟩] } 6 3).1)
      ∧ ((getAudioBuffer { initState with
            videoBuffer := [⟨1, 1⟩, ⟨2, 3⟩, ⟨3, 5⟩],
            audioBuffer := [⟨4, 2⟩, ⟨5, 4⟩] } 6 3).1.Sublist
          ({ initState with
              videoBuffer := [⟨1, 1⟩, ⟨2, 3⟩, ⟨3, 5⟩],
              audioBuffer := [⟨4, 2⟩, ⟨5, 4⟩] } : BMState).audioBuffer)
      ∧ (∀ x ∈ (getAudioBuffer { initState with
            videoBuffer := [⟨1, 1⟩, ⟨2, 3⟩, ⟨3, 5⟩],
            audioBuffer := [⟨4, 2⟩, ⟨5, 4⟩] } 6 3).1,
          (6 : Int) - 3 ≤ x.timestamp)
      ∧ (∀ x ∈ ({ initState with
            videoBuffer := [⟨1, 1⟩, ⟨2, 3⟩, ⟨3, 5⟩],
            audioBuffer := [⟨4, 2⟩, ⟨5, 4⟩] } : BMState).audioBuffer,
          (6 : Int) - 3 ≤ x.timestamp →
          x ∈ (getAudioBuffer { initState with
            videoBuffer := [⟨1, 1⟩, ⟨2, 3⟩, ⟨3, 5⟩],
            audioBuffer := [⟨4, 2⟩, ⟨5, 4⟩] } 6 3).1)
      ∧ ((∀ x ∈ ({ initState with
            videoBuffer := [⟨1, 1⟩, ⟨2, 3⟩, ⟨3, 5⟩],
            audioBuffer := [⟨4, 2⟩, ⟨5, 4⟩] } : BMState).audioBuffer,
          x.timestamp < (6 : Int) - 3) →
          (getAudioBuffer { initState with
            videoBuffer := [⟨1, 1⟩, ⟨2, 3⟩, ⟨3, 5⟩],
            audioBuffer := [⟨4, 2⟩, ⟨5, 4⟩] } 6 3).1 = [])) :=
  ⟨by decide, by decide,
    window_read_exact { initState with
        videoBuffer := [⟨1, 1⟩, ⟨2, 3⟩, ⟨3, 5⟩],
        audioBuffer := [⟨4, 2⟩, ⟨5, 4⟩] } 6 3 (by decide) (by decide)⟩

/-- C9 counterexample: with an active recording, a failing
`video_writer.release()` aborts the whole stop: `None` is returned, the
audio sink is never closed, no metadata is persisted, and the registry
entry survives — contrary to the claimed close-failure tolerance. -/
theorem stop_close_failure_counterexample :
    ((stopIncidentRecording { envOk with videoCloseOk := false } 9
        (startIncidentRecording envOk 5 initState "i1" "fight").2 "i1").1
      = none)
    ∧ ((lookupRec "i1" (stopIncidentRecording { envOk with videoCloseOk := false }
          9 (startIncidentRecording envOk 5 initState "i1" "fight").2
          "i1").2.recordings).isSome = true)
    ∧ ((stopIncidentRecording { envOk with videoCloseOk := false } 9
        (startIncidentRecording envOk 5 initState "i1" "fight").2 "i1").2.trace
      = [Event.closeVideo "i1"])
    ∧ (Event.closeAudio "i1" ∉
        (stopIncidentRecording { envOk with videoCloseOk := false } 9
          (startIncidentRecording envOk 5 initState "i1" "fight").2
          "i1").2.trace)
    ∧ ((stopIncidentRecording { envOk with videoCloseOk := false } 9
        (startIncidentRecording envOk 5 initState "i1" "fight").2
        "i1").2.persisted = []) := by
  exact ⟨by decide, by decide, by decide, by decide, by decide⟩

/-- C9 (amended): when both closes and the metadata write succeed,
`stop_incident_recording` closes each sink exactly once, builds metadata
with `duration = now - start_time`, persists it, removes the registry entry
and returns it; but when `video_writer.release()` raises, the exception is
caught at the method level and finalization is aborted: `None` is returned,
the audio sink is never closed, nothing is persisted, and the entry remains
in the registry. -/
theorem stop_close_each_once_or_abort (env : Env) (now : Int) (s : BMState)
    (id : String) (r : Recording)
    (hl : lookupRec id s.recordings = some r)
    (hv : r.videoWriter.isSome = true) (ha : r.audioWriter.isSome = true) :
    (env.videoCloseOk = true → env.audioCloseOk = true → env.persistOk = true →
      (((stopIncidentRecording env now s id).1 = some (mkMetadata id r now))
        ∧ ((mkMetadata id r now).duration = now - r.startTime)
        ∧ ((stopIncidentRecording env now s id).2.trace
            = s.trace ++ [Event.closeVideo id] ++ [Event.closeAudio id])
        ∧ ((stopIncidentRecording env now s id).2.persisted
            = s.persisted ++ [mkMetadata id r now])
        ∧ (lookupRec id (stopIncidentRecording env now s id).2.recordings
            = none)))
    ∧ (env.videoCloseOk = false →
      (((stopIncidentRecording env now s id).1 = none)
        ∧ ((stopIncidentRecording env now s id).2.trace
            = s.trace ++ [Event.closeVideo id])
        ∧ (lookupRec id (stopIncidentRecording env now s id).2.recordings
            = some r)
        ∧ ((stopIncidentRecording env now s id).2.persisted = s.persisted))) := by
  constructor
  · intro hvc hac hp
    rw [stop_success env now s id r hl hv ha hvc hac hp]
    refine ⟨rfl, rfl, ?_, rfl, lookupRec_removeRec id _⟩
    show (s.trace ++ [Event.closeVideo id]) ++ [Event.closeAudio id]
      = s.trace ++ [Event.closeVideo id] ++ [Event.closeAudio id]
    rfl
  · intro hvc
    have hstop : stopIncidentRecording env now s id
        = (none, { s with trace := s.trace ++ [Event.closeVideo id] }) := by
      simp only [stopIncidentRecording, hl, hv, hvc, Bool.not_false,
        Bool.and_true, if_true, ite_true]
    rw [hstop]
    exact ⟨rfl, rfl, hl, rfl⟩

/-- Witness for the amended C9: a concrete active recording stopped with
every external call succeeding. -/
theorem stop_close_each_once_or_abort_witness :
    lookupRec "i1" (startIncidentRecording envOk 5 initState "i1"
      "fight").2.recordings = some (freshRecording "i1" "fight" 5)
    ∧ (freshRecording "i1" "fight" 5).videoWriter.isSome = true
    ∧ (freshRecording "i1" "fight" 5).audioWriter.isSome = true
    ∧ ((envOk.videoCloseOk = true → envOk.audioCloseOk = true →
        envOk.persistOk = true →
        (((stopIncidentRecording envOk 9
            (startIncidentRecording envOk 5 initState "i1" "fight").2 "i1").1
          = some (mkMetadata "i1" (freshRecording "i1" "fight" 5) 9))
        ∧ ((mkMetadata "i1" (freshRecording "i1" "fight" 5) 9).duration
          = 9 - (freshRecording "i1" "fight" 5).startTime)
        ∧ ((stopIncidentRecording envOk 9
            (startIncidentRecording envOk 5 initState "i1" "fight").2
            "i1").2.trace
          = (startIncidentRecording envOk 5 initState "i1" "fight").2.trace
              ++ [Event.closeVideo "i1"] ++ [Event.closeAudio "i1"])
        ∧ ((stopIncidentRecording envOk 9
            (startIncidentRecording envOk 5 initState "i1" "fight").2
            "i1").2.persisted
          = (startIncidentRecording envOk 5 initState "i1" "fight").2.persisted
              ++ [mkMetadata "i1" (freshRecording "i1" "fight" 5) 9])
        ∧ (lookupRec "i1" (stopIncidentRecording envOk 9
            (startIncidentRecording envOk 5 initState "i1" "fight").2
            "i1").2.recordings = none)))
      ∧ (envOk.videoCloseOk = false →
        (((stopIncidentRecording envOk 9
            (startIncidentRecording envOk 5 initState "i1" "fight").2 "i1").1
          = none)
        ∧ ((stopIncidentRecording envOk 9
            (startIncidentRecording envOk 5 initState "i1" "fight").2
            "i1").2.trace
          = (startIncidentRecording envOk 5 initState "i1" "fight").2.trace
              ++ [Event.closeVideo "i1"])
        ∧ (lookupRec "i1" (stopIncidentRecording envOk 9
            (startIncidentRecording envOk 5 initState "i1" "fight").2
            "i1").2.recordings = some (freshRecording "i1" "fight" 5))
        ∧ ((stopIncidentRecording envOk 9
            (startIncidentRecording envOk 5 initState "i1" "fight").2
            "i1").2.persisted
          = (startIncidentRecording envOk 5 initState "i1" "fight").2.persisted)))) :=
  ⟨by decide, by decide, by decide,
    stop_close_each_once_or_abort envOk 9
      (startIncidentRecording envOk 5 initState "i1" "fight").2 "i1"
      (freshRecording "i1" "fight" 5) (by decide) (by decide) (by decide)⟩

/-- C10: the capture-side push only places the sample on the bounded ingest
queue — the ring buffers and hence the windowed reads are unchanged by the
push itself; the sample enters the ring buffer (and becomes visible to
reads) exactly when the writer loop performs its dequeue-and-append step. -/
theorem push_invisible_until_writer_runs (s : BMState) (f a : Nat)
    (ts now dur : Int) (x : Sample) (q : List Sample) :
    ((addVideoFrame s f ts).videoBuffer = s.videoBuffer)
    ∧ ((addVideoFrame s f ts).videoQueue
        = enqueuePut queueMaxsize s.videoQueue ⟨f, ts⟩)
    ∧ ((getVideoBuffer (addVideoFrame s f ts) now dur).1
        = (getVideoBuffer s now dur).1)
    ∧ ((addAudioChunk s a ts).audioBuffer = s.audioBuffer)
    ∧ ((addAudioChunk s a ts).audioQueue
        = enqueuePut queueMaxsize s.audioQueue ⟨a, ts⟩)
    ∧ ((getAudioBuffer (addAudioChunk s a ts) now dur).1
        = (getAudioBuffer s now dur).1)
    ∧ ((processVideoOnce { s with videoQueue := x :: q }).videoBuffer
        = dequeAppend s.videoCap s.videoBuffer x)
    ∧ ((processVideoOnce { s with videoQueue := x :: q }).videoQueue = q)
    ∧ ((processAudioOnce { s with audioQueue := x :: q }).audioBuffer
        = dequeAppend s.audioCap s.audioBuffer x)
    ∧ ((processAudioOnce { s with audioQueue := x :: q }).audioQueue = q) :=
  ⟨rfl, rfl, rfl, rfl, rfl, rfl, rfl, rfl, rfl, rfl⟩

end BufferManagerSpec
